import Mathlib

/-
Verification development for the pysatNASA instrument-adapter repository.

The Python sources are shallowly embedded as pure Lean functions:
  * numpy floating-point values become `Option Rat`, with `none` playing the
    role of NaN (IEEE comparisons treat NaN as unequal to everything,
    including itself, which is what numpy elementwise `==` does);
  * Python dicts become association lists with first-match lookup;
  * Python exceptions become an inductive `PyExc`, and fallible code returns
    `Except PyExc` values or an explicit `Option PyExc` component;
  * side effects of the download routine (HTTP GETs, file writes, log lines)
    are collected in an explicit `DlState` trace;
  * external-library behaviour (the `cdflib` parser, `requests`, the pysat
    `futils` filename parsers, pandas slicing) enters as function parameters:
    the repository code under verification is the glue around those calls.
-/

set_option autoImplicit false

namespace PysatNasa

/-- A numpy floating value: `none` models NaN. -/
abbrev RVal := Option Rat

/-- numpy elementwise equality: NaN (here `none`) compares unequal to every
value, including itself; ordinary numbers compare by value. -/
def npEq : RVal → RVal → Bool
  | some a, some b => a == b
  | _, _ => false

/-- Python exceptions relevant to the embedded code.  `connectionError` and
`requestException` model `requests.exceptions.ConnectionError` and
`requests.exceptions.RequestException`; in the `requests` library the former
is a subclass of the latter. -/
inductive PyExc where
  | keyError (key : String)
  | valueError (msg : String)
  | typeError (msg : String)
  | connectionError (msg : String)
  | requestException (msg : String)
  deriving DecidableEq, Repr

/-- The class test performed by `except requests.exceptions.RequestException`:
it also catches `ConnectionError`, a subclass. -/
def isRequestExceptionClass : PyExc → Bool
  | .connectionError _ => true
  | .requestException _ => true
  | _ => false

/-- The class test performed by `except requests.exceptions.ConnectionError`. -/
def isConnectionError : PyExc → Bool
  | .connectionError _ => true
  | _ => false

/-- Python type name of the exception object, used in TypeError messages. -/
def excName : PyExc → String
  | .keyError _ => "KeyError"
  | .valueError _ => "ValueError"
  | .typeError _ => "TypeError"
  | .connectionError _ => "ConnectionError"
  | .requestException _ => "RequestException"

/-- The message carried by the exception (`str(e)`). -/
def excMessage : PyExc → String
  | .keyError m => m
  | .valueError m => m
  | .typeError m => m
  | .connectionError m => m
  | .requestException m => m

/- ------------------------------------------------------------------
   CDF.load_variables (cdaweb.py lines 191-262): fill-value masking.

   A CDF variable is modelled by its name, its attribute record (the two
   attributes the masking code reads), the `Data_Type_Description` returned
   by `varinq`, and the array returned by `varget` as a flat list of values
   in C order (`none` models `varget` returning None, in which case the
   variable is skipped; the TypeError-skip branch is folded into the same
   `none`).
   ------------------------------------------------------------------ -/

/-- The variable attributes read by `CDF.load_variables`. -/
structure VarAtts where
  varType : Option String
  fillval : Option RVal
  deriving DecidableEq, Repr

/-- One CDF variable as seen by `CDF.load_variables`. -/
structure CdfVar where
  name : String
  atts : VarAtts
  dataTypeDescription : String
  varData : Option (List RVal)
  deriving DecidableEq, Repr

/-- The float data-type test of cdaweb.py lines 232-238. -/
def isFloatDataType (d : String) : Bool :=
  d == "CDF_FLOAT" || d == "CDF_REAL4" || d == "CDF_DOUBLE" || d == "CDF_REAL8"

/-- `ydata[ydata == fillval] = np.nan`: every element elementwise-equal to the
fill value becomes NaN. -/
def maskFill (fv : RVal) (yd : List RVal) : List RVal :=
  yd.map (fun x => if npEq x fv then none else x)

/-- The FILLVAL block of cdaweb.py lines 231-240, including the
`ydata[ydata == var_atts["FILLVAL"]].size != 0` guard. -/
def applyFillval (atts : VarAtts) (dtd : String) (yd : List RVal) : List RVal :=
  match atts.fillval with
  | some fv =>
      if isFloatDataType dtd then
        if (yd.filter (fun x => npEq x fv)).length ≠ 0 then maskFill fv yd else yd
      else yd
  | none => yd

/-- `CDF.load_variables`: iterate over the file variables, keep those matched
by the compiled varformat regex (modelled by the predicate `sel`), with a
`VAR_TYPE` attribute among `varTypes`, and with non-None data; mask fill
values and store.  The stored container (Series / DataFrame / fallback dict,
lines 245-258) wraps exactly these values, so the model records the values. -/
def loadVariables (sel : String → Bool) (varTypes : List String)
    (vars : List CdfVar) : List (String × List RVal) :=
  vars.filterMap (fun v =>
    if sel v.name then
      match v.atts.varType with
      | none => none
      | some vt =>
          if varTypes.contains vt then
            match v.varData with
            | none => none
            | some yd => some (v.name, applyFillval v.atts v.dataTypeDescription yd)
          else none
    else none)

/- ------------------------------------------------------------------
   Python dictionaries, supported_tags tables, dates, strings.
   ------------------------------------------------------------------ -/

/-- A per-tag template dict (string keys, string template values). -/
abbrev TagDict := List (String × String)

/-- `supported_tags` is a dict of dicts: inst_id, then tag, both possibly
`None` (modelled by `Option String`). -/
abbrev SupportedTags := List (Option String × List (Option String × TagDict))

/-- `d[k]` on a string-keyed dict: KeyError when absent. -/
def dictGet (d : TagDict) (k : String) : Except PyExc String :=
  match d.find? (fun kv => kv.1 == k) with
  | some kv => .ok kv.2
  | none => .error (.keyError k)

/-- `supported_tags[inst_id][tag]`: either subscript may raise KeyError. -/
def tagsLookup (tags : SupportedTags) (instId tag : Option String) :
    Except PyExc TagDict :=
  match tags.find? (fun kv => kv.1 == instId) with
  | none => .error (.keyError "inst_id")
  | some kv =>
      match kv.2.find? (fun kv2 => kv2.1 == tag) with
      | none => .error (.keyError "tag")
      | some kv2 => .ok kv2.2

/-- A datetime, to the fields the download templates format. -/
structure PyDate where
  year : Nat
  month : Nat
  day : Nat
  hour : Nat
  minute : Nat
  second : Nat
  deriving DecidableEq, Repr

/-- A daily date at midnight. -/
def mkDay (y m d : Nat) : PyDate := ⟨y, m, d, 0, 0, 0⟩

/-- Denotation of Python `template.format(year=..., ..., sec=...)` for the
filename templates: the model takes the interpreter of the `str.format`
mini-language as a parameter and the concrete witnesses instantiate it for
the templates actually used. -/
abbrev FormatFn := String → PyDate → String

/-- `s.strip(c)` for a single character. -/
def stripChar (c : Char) (s : String) : String :=
  ⟨((s.toList.dropWhile (fun x => x == c)).reverse.dropWhile
      (fun x => x == c)).reverse⟩

/-- `os.path.split(s)[0]`: everything before the last slash. -/
def osPathSplitDir (s : String) : String :=
  String.intercalate "/" ((s.splitOn "/").dropLast)

/-- Python `s[0:-n]` (for n ≥ 1): drop the last n characters. -/
def pyDropLastChars (n : Nat) (s : String) : String :=
  ⟨s.toList.take (s.toList.length - n)⟩

/-- Python `s[-n:]` (for n ≥ 1): the last n characters. -/
def pyLastChars (n : Nat) (s : String) : String :=
  ⟨s.toList.drop (s.toList.length - n)⟩

/-- Full month name, as produced by `%B`. -/
def monthName : Nat → String
  | 1 => "January" | 2 => "February" | 3 => "March" | 4 => "April"
  | 5 => "May" | 6 => "June" | 7 => "July" | 8 => "August"
  | 9 => "September" | 10 => "October" | 11 => "November" | 12 => "December"
  | _ => ""

/-- `date.strftime('%d %B %Y')`, used only in log text. -/
def strftimeDBY (d : PyDate) : String :=
  toString d.day ++ " " ++ monthName d.month ++ " " ++ toString d.year

/-- An item of the tuple handed to `' '.join(...)`: either a str or the
caught exception object. -/
inductive PyStrOrObj where
  | str (s : String)
  | exc (e : PyExc)
  deriving DecidableEq, Repr

/-- CPython `sep.join(items)`: raises TypeError at the first non-str item,
otherwise intercalates. -/
def strJoin (sep : String) (items : List PyStrOrObj) : Except PyExc String :=
  match strJoinCheck 0 items with
  | some err => .error err
  | none => .ok (String.intercalate sep (items.map (fun it =>
      match it with
      | .str s => s
      | .exc _ => "")))
where
  strJoinCheck : Nat → List PyStrOrObj → Option PyExc
    | _, [] => none
    | i, .str _ :: rest => strJoinCheck (i + 1) rest
    | i, .exc e :: _ =>
        some (.typeError ("sequence item " ++ toString i ++
          ": expected str instance, " ++ excName e ++ " found"))

/- ------------------------------------------------------------------
   HTTP and effect traces for the download routine.
   ------------------------------------------------------------------ -/

/-- Outcome of one `requests.get(url)`: a response with a status code and
body, or a raised exception. -/
inductive HttpResult where
  | resp (status : Nat) (content : String)
  | raise (e : PyExc)
  deriving DecidableEq, Repr

/-- The observable side effects of a `download` call: the GET URLs in request
order, the files written as (path, content), and the log lines. -/
structure DlState where
  gets : List String
  writes : List (String × String)
  logs : List String
  deriving DecidableEq, Repr

/-- The state before any effect. -/
def DlState.empty : DlState := ⟨[], [], []⟩

/- ------------------------------------------------------------------
   cdaweb.download (cdaweb.py lines 431-581).

   The `list_remote_files` call inside `download` and the per-file listing
   of the multi_file_day branch are passed in as the parameters `listRemote`
   and `listPerDate` (their own internals are modelled separately below);
   the HTTP client is the oracle `request`.
   ------------------------------------------------------------------ -/

/-- One iteration of the standard (not multi_file_day) download loop for one
date (cdaweb.py lines 515-549): format the remote and local names, GET the
remote path, write the body unless the status is 404; on a raised
RequestException the handler runs `logger.info(' '.join((exception, ...)))`,
and since the first joined item is the exception object and not a str, that
join raises TypeError, which propagates. -/
def downloadDateStandard (request : String → HttpResult)
    (remoteUrl remoteFname localFname dataPath : String) (fmt : FormatFn)
    (date : PyDate) (st : DlState) : DlState × Option PyExc :=
  let formattedRemote := fmt remoteFname date
  let formattedLocal := fmt localFname date
  let savedLocal := dataPath ++ "/" ++ formattedLocal
  let attemptLog := "Attempting to download file for " ++ strftimeDBY date
  let remotePath := stripChar '/' remoteUrl ++ "/" ++ formattedRemote
  match request remotePath with
  | .resp status content =>
      if status != 404 then
        (⟨st.gets ++ [remotePath], st.writes ++ [(savedLocal, content)],
          st.logs ++ [attemptLog, "Finished."]⟩, none)
      else
        (⟨st.gets ++ [remotePath], st.writes,
          st.logs ++ [attemptLog,
            "File not available for " ++ strftimeDBY date]⟩, none)
  | .raise e =>
      let st1 : DlState := ⟨st.gets ++ [remotePath], st.writes,
        st.logs ++ [attemptLog]⟩
      if isRequestExceptionClass e then
        match strJoin " " [.exc e, .str "- File not available for",
            .str (strftimeDBY date)] with
        | .ok msg => (⟨st1.gets, st1.writes, st1.logs ++ [msg]⟩, none)
        | .error e2 => (st1, some e2)
      else (st1, some e)

/-- The standard download loop over the (deduplicated, intersected) date
array; an uncaught exception aborts the remaining dates. -/
def downloadLoopStd (request : String → HttpResult)
    (remoteUrl remoteFname localFname dataPath : String) (fmt : FormatFn) :
    List PyDate → DlState → DlState × Option PyExc
  | [], st => (st, none)
  | d :: rest, st =>
      match downloadDateStandard request remoteUrl remoteFname localFname
          dataPath fmt d st with
      | (st1, none) =>
          downloadLoopStd request remoteUrl remoteFname localFname dataPath
            fmt rest st1
      | (st1, some e) => (st1, some e)

/-- The inner per-file loop of the multi_file_day branch (cdaweb.py lines
563-577): GET each listed file and write it unless 404, counting the files
written.  A raised exception aborts and propagates to the enclosing handler. -/
def downloadMultiFiles (request : String → HttpResult)
    (remoteUrl remoteDir dataPath : String) :
    List String → Nat → DlState → (DlState × Nat) × Option PyExc
  | [], i, st => ((st, i), none)
  | f :: rest, i, st =>
      let remoteFilePath := stripChar '/' remoteUrl ++ "/" ++
        stripChar '/' remoteDir ++ "/" ++ f
      let savedLocal := dataPath ++ "/" ++ f
      match request remoteFilePath with
      | .resp status content =>
          if status != 404 then
            downloadMultiFiles request remoteUrl remoteDir dataPath rest
              (i + 1)
              ⟨st.gets ++ [remoteFilePath],
               st.writes ++ [(savedLocal, content)], st.logs⟩
          else
            downloadMultiFiles request remoteUrl remoteDir dataPath rest i
              ⟨st.gets ++ [remoteFilePath], st.writes,
               st.logs ++ ["File not available"]⟩
      | .raise e =>
          ((⟨st.gets ++ [remoteFilePath], st.writes, st.logs⟩, i), some e)

/-- One iteration of the multi_file_day branch (cdaweb.py lines 551-581):
list the files for this date, then fetch each; the whole body is wrapped in
`except requests.exceptions.RequestException`, whose handler performs the
same exception-object join and therefore raises TypeError. -/
def downloadDateMulti (request : String → HttpResult)
    (listPerDate : PyDate → Except PyExc (List String))
    (remoteUrl remoteFname dataPath : String) (fmt : FormatFn)
    (date : PyDate) (st : DlState) : DlState × Option PyExc :=
  let formattedRemote := fmt remoteFname date
  let attemptLog := "Attempting to download files for " ++ strftimeDBY date
  let st0 : DlState := ⟨st.gets, st.writes, st.logs ++ [attemptLog]⟩
  let handler := fun (e : PyExc) (sth : DlState) =>
    if isRequestExceptionClass e then
      match strJoin " " [.exc e, .str "- Files not available for",
          .str (strftimeDBY date)] with
      | .ok msg => ((⟨sth.gets, sth.writes, sth.logs ++ [msg]⟩ : DlState),
          (none : Option PyExc))
      | .error e2 => (sth, some e2)
    else (sth, some e)
  match listPerDate date with
  | .error e => handler e st0
  | .ok files =>
      let remoteDir := osPathSplitDir formattedRemote
      match downloadMultiFiles request remoteUrl remoteDir dataPath files 0
          st0 with
      | ((st1, i), none) =>
          (⟨st1.gets, st1.writes, st1.logs ++
            ["Downloaded " ++ toString i ++ " of " ++
             toString files.length ++ " files."]⟩, none)
      | ((st1, _), some e) => handler e st1

/-- The multi_file_day loop over the raw date array. -/
def downloadLoopMulti (request : String → HttpResult)
    (listPerDate : PyDate → Except PyExc (List String))
    (remoteUrl remoteFname dataPath : String) (fmt : FormatFn) :
    List PyDate → DlState → DlState × Option PyExc
  | [], st => (st, none)
  | d :: rest, st =>
      match downloadDateMulti request listPerDate remoteUrl remoteFname
          dataPath fmt d st with
      | (st1, none) =>
          downloadLoopMulti request listPerDate remoteUrl remoteFname
            dataPath fmt rest st1
      | (st1, some e) => (st1, some e)

/-- `pds.DatetimeIndex(list(set(remote_files.index) & set(date_array)))`:
the distinct dates present in both lists.  (`sort_values` only reorders the
result; the order is irrelevant to the verified claims and is not modelled.) -/
def dedupInter (remoteIndex dateArray : List PyDate) : List PyDate :=
  (remoteIndex.filter (fun d => dateArray.contains d)).dedup

/-- `cdaweb.download`: look up the tag dict (KeyError becomes the ValueError
of line 491), read the three templates, then run the standard or the
multi_file_day loop.  The result is the effect trace paired with the uncaught
exception, if any. -/
def download (fmt : FormatFn) (tags : SupportedTags)
    (dateArray : List PyDate) (tag instId : Option String)
    (remoteSite dataPath : String) (multiFileDay : Bool)
    (listRemote : Except PyExc (List PyDate))
    (listPerDate : PyDate → Except PyExc (List String))
    (request : String → HttpResult) : DlState × Option PyExc :=
  match tagsLookup tags instId tag with
  | .error (.keyError _) =>
      (DlState.empty, some (.valueError "inst_id / tag combo unknown."))
  | .error e => (DlState.empty, some e)
  | .ok instDict =>
      match dictGet instDict "dir" with
      | .error e => (DlState.empty, some e)
      | .ok dirStr =>
          match dictGet instDict "remote_fname" with
          | .error e => (DlState.empty, some e)
          | .ok remoteFname =>
              match dictGet instDict "local_fname" with
              | .error e => (DlState.empty, some e)
              | .ok localFname =>
                  let remoteUrl := remoteSite ++ dirStr
                  if multiFileDay then
                    downloadLoopMulti request listPerDate remoteUrl
                      remoteFname dataPath fmt dateArray DlState.empty
                  else
                    match listRemote with
                    | .error e => (DlState.empty, some e)
                    | .ok remoteIndex =>
                        downloadLoopStd request remoteUrl remoteFname
                          localFname dataPath fmt
                          (dedupInter remoteIndex dateArray) DlState.empty

/- ------------------------------------------------------------------
   cdaweb.list_remote_files (cdaweb.py lines 584-758).

   The directory crawl of lines 717-736 (requests + BeautifulSoup) is the
   parameter `crawl`, whose value is the `full_files` list it builds, or the
   exception it raises; the pysat `futils` filename parsing of lines 742-750
   (library code external to this repository) is the parameter `parse`,
   producing the date-indexed series of filenames.
   ------------------------------------------------------------------ -/

/-- Chronological comparison of two dates (lexicographic on the fields). -/
def pyDateLe (a b : PyDate) : Bool :=
  if a.year ≠ b.year then a.year < b.year
  else if a.month ≠ b.month then a.month < b.month
  else if a.day ≠ b.day then a.day < b.day
  else if a.hour ≠ b.hour then a.hour < b.hour
  else if a.minute ≠ b.minute then a.minute < b.minute
  else a.second ≤ b.second

/-- The help text appended on a ConnectionError; `' '.join` of the literals
of cdaweb.py lines 738-740. -/
def connErrHelp : String :=
  "pysat -> Request potentially exceeds the server limit. " ++
  "Please try again using a smaller data range."

/-- The try/except of cdaweb.py lines 717-740 around the crawl: a
ConnectionError is re-raised as the same type with the help text appended to
its message; every other outcome passes through unchanged. -/
def connTryWrap (crawl : Except PyExc (List String)) :
    Except PyExc (List String) :=
  match crawl with
  | .error (.connectionError m) =>
      .error (.connectionError (m ++ " " ++ connErrHelp))
  | other => other

/-- The downselection of cdaweb.py lines 752-756: keep entries dated at or
after `start` and, when given, at or before `stop`. -/
def dateFilter (start stop : Option PyDate) (entries : List (PyDate × String)) :
    List (PyDate × String) :=
  match start with
  | none => entries
  | some s =>
      entries.filter (fun e =>
        pyDateLe s e.1 &&
          (match stop with
           | none => true
           | some t => pyDateLe e.1 t))

/-- `cdaweb.list_remote_files`: default None tag and inst_id to the empty
string, look up the tag dict (KeyError becomes ValueError), read the 'dir'
and 'remote_fname' templates, crawl (with the ConnectionError append), parse
the found filenames and downselect by date. -/
def list_remote_files (tags : SupportedTags) (tag instId : Option String)
    (crawl : Except PyExc (List String))
    (parse : List String → List (PyDate × String))
    (start stop : Option PyDate) : Except PyExc (List (PyDate × String)) :=
  let tagD := match tag with | none => some "" | s => s
  let instIdD := match instId with | none => some "" | s => s
  match tagsLookup tags instIdD tagD with
  | .error (.keyError _) =>
      .error (.valueError "inst_id / tag combo unknown.")
  | .error e => .error e
  | .ok instDict =>
      match dictGet instDict "dir" with
      | .error e => .error e
      | .ok _ =>
          match dictGet instDict "remote_fname" with
          | .error e => .error e
          | .ok _ =>
              match connTryWrap crawl with
              | .error e => .error e
              | .ok fullFiles => .ok (dateFilter start stop (parse fullFiles))

/- ------------------------------------------------------------------
   The adapter tables of cnofs_plp.py and formosat1_ivm.py, verbatim.
   ------------------------------------------------------------------ -/

/-- cnofs_plp.py line 77: the filename template. -/
def cnofsPlpFname : String :=
  "cnofs_plp_plasma_1sec_\x7byear:04d\x7d\x7bmonth:02d\x7d\x7bday:02d\x7d_v01.cdf"

/-- cnofs_plp.py lines 87-89: the tag dict handed to cdaweb.download. -/
def cnofsPlpBasicTag : TagDict :=
  [("dir", "/pub/data/cnofs/plp/plasma_1sec"),
   ("remote_fname", "\x7byear:4d\x7d/" ++ cnofsPlpFname),
   ("local_fname", cnofsPlpFname)]

/-- cnofs_plp.py line 90: supported_tags for download. -/
def cnofsPlpSupportedTags : SupportedTags :=
  [(some "", [(some "", cnofsPlpBasicTag)])]

/-- formosat1_ivm.py line 41: the filename template. -/
def formosat1Fname : String :=
  "rs_k0_ipei_\x7byear:04d\x7d\x7bmonth:02d\x7d\x7bday:02d\x7d_v\x7bversion:02d\x7d.cdf"

/-- formosat1_ivm.py lines 51-53: the tag dict handed to cdaweb.download;
note its keys are 'remote_dir' and 'fname'. -/
def formosat1BasicTag : TagDict :=
  [("remote_dir", "/pub/data/formosat-rocsat/formosat-1/ipei/\x7byear:4d\x7d/"),
   ("fname", formosat1Fname)]

/-- formosat1_ivm.py line 54: download_tags for download. -/
def formosat1DownloadTags : SupportedTags :=
  [(some "", [(some "", formosat1BasicTag)])]

/-- A concrete `str.format` interpreter for the cnofs_plp templates, used by
the witnesses: `\x7byear:04d\x7d` zero-pads to 4 digits, `\x7byear:4d\x7d`
space-pads. -/
def pad0 (w : Nat) (n : Nat) : String :=
  let s := toString n
  ⟨List.replicate (w - s.length) '0'⟩ ++ s

def padSp (w : Nat) (n : Nat) : String :=
  let s := toString n
  ⟨List.replicate (w - s.length) ' '⟩ ++ s

def cnofsFnameFormatted (d : PyDate) : String :=
  "cnofs_plp_plasma_1sec_" ++ pad0 4 d.year ++ pad0 2 d.month ++
    pad0 2 d.day ++ "_v01.cdf"

def cnofsFormatFn : FormatFn := fun tmpl d =>
  if tmpl == cnofsPlpFname then cnofsFnameFormatted d
  else if tmpl == "\x7byear:4d\x7d/" ++ cnofsPlpFname then
    padSp 4 d.year ++ "/" ++ cnofsFnameFormatted d
  else tmpl

/- ------------------------------------------------------------------
   cdaweb.load (cdaweb.py lines 356-428).

   The CDF constructor and the to_pysat export taken together are a
   deterministic function of the opened file and the flatten flag; they are
   passed in as `openCdf` / `toPysat` (their variable-loading internals are
   modelled by `loadVariables` above).  `strptime` and the pandas `.loc`
   day slice of the monthly branch are external-library parameters.
   ------------------------------------------------------------------ -/

/-- The pandas DataFrame as returned by load: named columns of values.
`len(df)` is its number of rows. -/
structure PdDataFrame where
  cols : List (String × List RVal)
  deriving DecidableEq, Repr

/-- `len(df)`: the number of rows (the longest column; 0 when empty). -/
def PdDataFrame.nrows (df : PdDataFrame) : Nat :=
  (df.cols.map (fun c => c.2.length)).foldr max 0

/-- `cdaweb.load`: empty file list returns an empty DataFrame and None;
otherwise only `fnames[0]` is used — directly, or with its trailing
`_YYYY-MM-DD` stripped in the fake-daily-from-monthly branch. -/
def load {π μ : Type} (fnames : List String)
    (fakeDailyFilesFromMonthly flattenTwod : Bool)
    (openCdf : String → π)
    (toPysat : π → Bool → PdDataFrame × μ)
    (strptime : String → PyDate)
    (sliceDaily : PdDataFrame → PyDate → PdDataFrame) :
    PdDataFrame × Option μ :=
  match fnames with
  | [] => (⟨[]⟩, none)
  | f0 :: _ =>
      if fakeDailyFilesFromMonthly then
        let fname := pyDropLastChars 11 f0
        let date := strptime (pyLastChars 10 f0)
        let pm := toPysat (openCdf fname) flattenTwod
        (sliceDaily pm.1 date, some pm.2)
      else
        let pm := toPysat (openCdf f0) flattenTwod
        (pm.1, some pm.2)

/- ------------------------------------------------------------------
   convert_ndimensional (cdaweb.py lines 25-32), as called from
   CDF.load_variables with columns=None on arrays of more than two
   dimensions.

   A numpy array is its shape together with its flat C-order data.
   ------------------------------------------------------------------ -/

/-- C-order flat position of the multi-index `idx` in an array of the given
shape. -/
def cIndex : List Nat → List Nat → Nat
  | [], _ => 0
  | _, [] => 0
  | _n :: ns, i :: is => i * ns.prod + cIndex ns is

/-- Multi-index of the C-order flat position `p` in the given shape. -/
def unflatten : List Nat → Nat → List Nat
  | [], _ => []
  | _n :: ns, p => p / ns.prod :: unflatten ns (p % ns.prod)

/-- Flat C-order data of `data.T`, the reversed-axes transpose: position `p`
of the transpose (whose shape is `shape.reverse`) holds the element of the
original array at the reversed multi-index. -/
def npTransposeFlat (shape : List Nat) (flat : List Rat) : List Rat :=
  (List.range shape.prod).map (fun p =>
    flat.getD (cIndex shape ((unflatten shape.reverse p).reverse)) 0)

/-- A two-dimensional DataFrame with MultiIndex column labels and row-major
flat values; the row index object (the epoch series) labels its `nrows`
rows. -/
structure PdFrame2D where
  nrows : Nat
  columnLabels : List (List Nat)
  values : List Rat
  deriving DecidableEq, Repr

/-- The value at row `r`, column position `c`. -/
def PdFrame2D.entry (df : PdFrame2D) (r c : Nat) : Rat :=
  df.values.getD (r * df.columnLabels.length + c) 0

/-- `pds.MultiIndex.from_product([range(n) for n in ns])`: all tuples of the
cartesian product, in lexicographic order. -/
def lexProduct : List Nat → List (List Nat)
  | [] => [[]]
  | n :: ns =>
      (List.range n).flatMap (fun i => (lexProduct ns).map (fun t => i :: t))

/-- `convert_ndimensional(data, index=index)` with `columns=None`:
`pds.DataFrame(data.T.reshape(data.shape[0], -1), columns=MultiIndex, index=index)`.
The reshape keeps the transpose's flat order and cuts it into
`data.shape[0]` rows. -/
def convert_ndimensional (shape : List Nat) (flat : List Rat) : PdFrame2D :=
  ⟨shape.headD 0, lexProduct shape.tail, npTransposeFlat shape flat⟩

/- ------------------------------------------------------------------
   cnofs_plp.clean (cnofs_plp.py lines 111-124).
   ------------------------------------------------------------------ -/

/-- `cnofs_plp.clean`: for every column other than 'Epoch', the entries
elementwise-equal (numpy `==`) to that column's metadata fill value are set
to NaN.  `fillOf` models `self.meta[key, self.fill_label]`. -/
def cnofs_plp_clean (cols : List (String × List RVal))
    (fillOf : String → RVal) : List (String × List RVal) :=
  cols.map (fun kc =>
    if kc.1 == "Epoch" then kc
    else (kc.1, kc.2.map (fun v => if npEq v (fillOf kc.1) then none else v)))

/- ==================================================================
   Theorems.
   ================================================================== -/

/-- If no element of the list is elementwise-equal to the fill value, the
mask leaves the list unchanged (this is why the `.size != 0` guard of
line 239 does not change the stored data). -/
theorem maskFill_of_no_match (fv : RVal) (yd : List RVal)
    (h : ∀ x ∈ yd, npEq x fv = false) : maskFill fv yd = yd := by
  induction yd with
  | nil => rfl
  | cons a t ih =>
      have ha := h a (List.mem_cons_self a t)
      have ht := ih (fun x hx => h x (List.mem_cons_of_mem a hx))
      simp only [maskFill, List.map_cons, ha, if_neg Bool.false_ne_true,
        Bool.false_eq_true, if_false]
      exact congrArg (List.cons a) ht

/-- The pair a selected, typed, non-empty variable contributes to
`self.data`. -/
theorem loadVariables_mem (sel : String → Bool) (varTypes : List String)
    (vars : List CdfVar) (v : CdfVar) (yd : List RVal)
    (hv : v ∈ vars) (hsel : sel v.name = true) (vt : String)
    (hvt : v.atts.varType = some vt) (hmem : varTypes.contains vt = true)
    (hdata : v.varData = some yd) :
    (v.name, applyFillval v.atts v.dataTypeDescription yd) ∈
      loadVariables sel varTypes vars := by
  have hmem2 : vt ∈ varTypes := by simpa using hmem
  apply List.mem_filterMap.mpr
  refine ⟨v, hv, ?_⟩
  simp [hsel, hvt, hmem2, hdata]

/-- C1: in `CDF.load_variables`, a selected variable with a FILLVAL
attribute and a CDF_FLOAT / CDF_REAL4 / CDF_DOUBLE / CDF_REAL8 data type is
stored with every element elementwise-equal to FILLVAL replaced by NaN and
every other element unchanged; a variable of any other data type, or without
a FILLVAL attribute, is stored with its data unchanged. -/
theorem c1_load_variables_fillval_masking
    (sel : String → Bool) (varTypes : List String) (vars : List CdfVar)
    (v : CdfVar) (vt : String) (yd : List RVal)
    (hv : v ∈ vars) (hsel : sel v.name = true)
    (hvt : v.atts.varType = some vt) (hmem : varTypes.contains vt = true)
    (hdata : v.varData = some yd) :
    (∀ fv, v.atts.fillval = some fv →
      isFloatDataType v.dataTypeDescription = true →
        ((v.name, maskFill fv yd) ∈ loadVariables sel varTypes vars
          ∧ ∀ i : Nat, (maskFill fv yd)[i]? =
              (yd[i]?).map (fun x => if npEq x fv then none else x)))
    ∧ ((v.atts.fillval = none ∨ isFloatDataType v.dataTypeDescription = false) →
        (v.name, yd) ∈ loadVariables sel varTypes vars) := by
  have hstore := loadVariables_mem sel varTypes vars v yd hv hsel vt hvt
    hmem hdata
  constructor
  · intro fv hfv hfloat
    refine ⟨?_, ?_⟩
    · have happ : applyFillval v.atts v.dataTypeDescription yd =
          maskFill fv yd := by
        simp only [applyFillval, hfv, hfloat, if_true]
        by_cases hg : (yd.filter (fun x => npEq x fv)).length ≠ 0
        · simp [hg]
        · push_neg at hg
          have hnil : yd.filter (fun x => npEq x fv) = [] :=
            List.length_eq_zero.mp hg
          have hnone : ∀ x ∈ yd, npEq x fv = false := by
            intro x hx
            by_contra hcon
            have : x ∈ yd.filter (fun x => npEq x fv) :=
              List.mem_filter.mpr ⟨hx, by
                cases hb : npEq x fv with
                | false => exact absurd hb hcon
                | true => rfl⟩
            rw [hnil] at this
            exact absurd this (List.not_mem_nil x)
          simp [hg, maskFill_of_no_match fv yd hnone]
      rw [happ] at hstore
      exact hstore
    · intro i
      simp [maskFill, List.getElem?_map]
  · intro hcase
    have happ : applyFillval v.atts v.dataTypeDescription yd = yd := by
      rcases hcase with hnone | hfloat
      · simp [applyFillval, hnone]
      · cases hfv : v.atts.fillval with
        | none => simp [applyFillval, hfv]
        | some fv => simp [applyFillval, hfv, hfloat]
    rw [happ] at hstore
    exact hstore

/-- A concrete CDF_FLOAT variable with a fill value of -999 for the C1
witness. -/
def c1ExVar : CdfVar :=
  ⟨"density", ⟨some "data", some (some (-999 : Rat))⟩, "CDF_FLOAT",
    some [some 5, some (-999), none]⟩

/-- C1 witness: on a concrete variable, the -999 entry is stored as NaN and
the others survive. -/
theorem c1_load_variables_fillval_masking_witness :
    ("density", maskFill (some (-999 : Rat))
        [some 5, some (-999), none]) ∈
      loadVariables (fun _ => true) ["data", "support_data"] [c1ExVar]
    ∧ maskFill (some (-999 : Rat)) [some 5, some (-999), none] =
        [some 5, none, none] :=
  ⟨((c1_load_variables_fillval_masking (fun _ => true)
      ["data", "support_data"] [c1ExVar] c1ExVar "data"
      [some 5, some (-999), none] (by simp) rfl rfl (by decide) rfl).1
      (some (-999)) rfl rfl).1,
    by decide⟩

/-- C5: `cnofs_plp.clean` keeps the column names, leaves the 'Epoch' column
untouched, and in every other column replaces exactly the entries
elementwise-equal to that column's metadata fill value by NaN, leaving all
other entries (including NaN entries, which numpy `==` never matches)
unchanged. -/
theorem c5_clean_masks_fill_values
    (cols : List (String × List RVal)) (fillOf : String → RVal)
    (k : String) (vs : List RVal) (hmem : (k, vs) ∈ cols) :
    (cnofs_plp_clean cols fillOf).map Prod.fst = cols.map Prod.fst
    ∧ (k = "Epoch" → (k, vs) ∈ cnofs_plp_clean cols fillOf)
    ∧ (k ≠ "Epoch" →
        ∃ vs2, (k, vs2) ∈ cnofs_plp_clean cols fillOf
          ∧ vs2.length = vs.length
          ∧ ∀ (i : Nat) (x : RVal), vs[i]? = some x →
              ((∀ a : Rat, x = some a → fillOf k = some a →
                  vs2[i]? = some none)
               ∧ ((x = none ∨ x ≠ fillOf k) → vs2[i]? = some x))) := by
  refine ⟨?_, ?_, ?_⟩
  · unfold cnofs_plp_clean
    rw [List.map_map]
    apply List.map_congr_left
    intro kc _
    simp only [Function.comp_apply]
    split <;> rfl
  · intro hk
    apply List.mem_map.mpr
    refine ⟨(k, vs), hmem, ?_⟩
    simp [hk]
  · intro hk
    refine ⟨vs.map (fun v => if npEq v (fillOf k) then none else v), ?_, ?_, ?_⟩
    · apply List.mem_map.mpr
      refine ⟨(k, vs), hmem, ?_⟩
      have hne : (k == "Epoch") = false := by
        cases hb : k == "Epoch" with
        | false => rfl
        | true => exact absurd (by simpa using hb) hk
      simp [hne]
    · simp
    · intro i x hx
      constructor
      · intro a hxa hfa
        subst hxa
        rw [List.getElem?_map, hx, hfa]
        simp [npEq]
      · intro hcase
        have hne : npEq x (fillOf k) = false := by
          rcases hcase with hn | hne2
          · subst hn
            cases hf : fillOf k <;> rfl
          · cases x with
            | none => cases hf : fillOf k <;> rfl
            | some a =>
                cases hf : fillOf k with
                | none => rfl
                | some b =>
                    have hab : a ≠ b := fun hcon => hne2 (by rw [hf, hcon])
                    simp [npEq, hab]
        rw [List.getElem?_map, hx]
        simp [hne]

/-- Concrete data and metadata fill values for the C5 witness. -/
def c5ExCols : List (String × List RVal) :=
  [("Epoch", [some 1]), ("density", [some 5, some (-999), none])]

def c5ExFill : String → RVal :=
  fun k => if k == "density" then some (-999) else none

/-- C5 witness: the Epoch column of a concrete frame passes through clean
unchanged. -/
theorem c5_clean_masks_fill_values_witness :
    ("Epoch", [some (1 : Rat)]) ∈ cnofs_plp_clean c5ExCols c5ExFill :=
  (c5_clean_masks_fill_values c5ExCols c5ExFill "Epoch" [some 1]
    (by simp [c5ExCols])).2.1 rfl

/-- C2: when the crawl inside `list_remote_files` raises a ConnectionError,
`list_remote_files` raises a ConnectionError whose message is the original
message followed (after the joining space) by the help text, which contains
the words 'pysat -> Request potentially exceeds the server limit'; the
try/except raises the augmented error for no other crawl outcome: any
non-ConnectionError exception passes through unchanged and a successful
crawl returns normally. -/
theorem c2_connection_error_append
    (tags : SupportedTags) (tag instId : Option String)
    (instDict : TagDict) (parse : List String → List (PyDate × String))
    (start stop : Option PyDate)
    (hlook : tagsLookup tags (match instId with | none => some "" | s => s)
        (match tag with | none => some "" | s => s) = .ok instDict)
    (hdir : ∃ d, dictGet instDict "dir" = .ok d)
    (hrf : ∃ r, dictGet instDict "remote_fname" = .ok r) :
    (∀ m, list_remote_files tags tag instId (.error (.connectionError m))
        parse start stop =
      .error (.connectionError (m ++ " " ++ connErrHelp)))
    ∧ (∃ pre post, connErrHelp = pre ++
        "pysat -> Request potentially exceeds the server limit" ++ post)
    ∧ (∀ e, isConnectionError e = false →
        list_remote_files tags tag instId (.error e) parse start stop =
          .error e)
    ∧ (∀ fs, list_remote_files tags tag instId (.ok fs) parse start stop =
        .ok (dateFilter start stop (parse fs))) := by
  obtain ⟨d, hd⟩ := hdir
  obtain ⟨r, hr⟩ := hrf
  refine ⟨?_, ?_, ?_, ?_⟩
  · intro m
    simp [list_remote_files, hlook, hd, hr, connTryWrap]
  · exact ⟨"", ". Please try again using a smaller data range.", by decide⟩
  · intro e he
    cases e <;> simp_all [list_remote_files, hlook, hd, hr, connTryWrap,
      isConnectionError]
  · intro fs
    simp [list_remote_files, hlook, hd, hr, connTryWrap]

/-- A trivial filename parser for the witnesses. -/
def exParse : List String → List (PyDate × String) :=
  fun fs => fs.map (fun f => (mkDay 2009 1 1, f))

/-- C2 witness: with the cnofs_plp table and a crawl failing with message
'boom', list_remote_files raises ConnectionError with the help appended. -/
theorem c2_connection_error_append_witness :
    list_remote_files cnofsPlpSupportedTags none none
        (.error (.connectionError "boom")) exParse none none =
      .error (.connectionError ("boom" ++ " " ++ connErrHelp)) :=
  (c2_connection_error_append cnofsPlpSupportedTags none none
    cnofsPlpBasicTag exParse none none rfl ⟨_, rfl⟩ ⟨_, rfl⟩).1 "boom"

/-- C9: when `supported_tags[inst_id][tag]` fails with KeyError, `download`
returns with an empty effect trace (no GET, no file written) raising
ValueError 'inst_id / tag combo unknown.', and `list_remote_files` raises
the same ValueError with a result independent of the crawl (so before any
network request). -/
theorem c9_unknown_inst_id_tag_combo
    (tags : SupportedTags) (tag instId : Option String) (fmt : FormatFn)
    (dateArray : List PyDate) (remoteSite dataPath : String)
    (multiFileDay : Bool) (listRemote : Except PyExc (List PyDate))
    (listPerDate : PyDate → Except PyExc (List String))
    (request : String → HttpResult)
    (parse : List String → List (PyDate × String))
    (start stop : Option PyDate) (kd : String)
    (hd : tagsLookup tags instId tag = .error (.keyError kd)) :
    download fmt tags dateArray tag instId remoteSite dataPath multiFileDay
        listRemote listPerDate request =
      (DlState.empty, some (.valueError "inst_id / tag combo unknown."))
    ∧ ∀ kl, tagsLookup tags (match instId with | none => some "" | s => s)
          (match tag with | none => some "" | s => s) =
            .error (.keyError kl) →
        ∀ crawl, list_remote_files tags tag instId crawl parse start stop =
          .error (.valueError "inst_id / tag combo unknown.") := by
  constructor
  · simp [download, hd]
  · intro kl hkl crawl
    simp [list_remote_files, hkl]

/-- C9 witness: an unknown tag on the cnofs_plp table gives the ValueError
with an untouched trace, for both routines. -/
theorem c9_unknown_inst_id_tag_combo_witness :
    download cnofsFormatFn cnofsPlpSupportedTags [mkDay 2019 1 1]
        (some "badval") (some "") "https://cdaweb.gsfc.nasa.gov" "/data"
        false (.ok []) (fun _ => .ok []) (fun _ => .resp 404 "") =
      (DlState.empty, some (.valueError "inst_id / tag combo unknown."))
    ∧ list_remote_files cnofsPlpSupportedTags (some "badval") (some "")
        (.ok []) exParse none none =
      .error (.valueError "inst_id / tag combo unknown.") := by
  have h := c9_unknown_inst_id_tag_combo cnofsPlpSupportedTags
    (some "badval") (some "") cnofsFormatFn [mkDay 2019 1 1]
    "https://cdaweb.gsfc.nasa.gov" "/data" false (.ok [])
    (fun _ => .ok []) (fun _ => .resp 404 "") exParse none none "tag" rfl
  exact ⟨h.1, h.2 "tag" rfl (.ok [])⟩

/-- C8: with an empty fnames list, `cdaweb.load` returns the empty DataFrame
paired with None, with zero rows, and without consulting any file (the
result does not depend on the file system). -/
theorem c8_load_empty_file_list
    {π μ : Type} (fnames : List String) (fake flat : Bool)
    (openCdf : String → π) (toPysat : π → Bool → PdDataFrame × μ)
    (strptime : String → PyDate)
    (sliceDaily : PdDataFrame → PyDate → PdDataFrame)
    (h : fnames.length ≤ 0) :
    load fnames fake flat openCdf toPysat strptime sliceDaily =
        (⟨[]⟩, none)
    ∧ (load fnames fake flat openCdf toPysat strptime sliceDaily).1.nrows = 0
    ∧ ∀ (openCdf2 : String → π),
        load fnames fake flat openCdf2 toPysat strptime sliceDaily =
          load fnames fake flat openCdf toPysat strptime sliceDaily := by
  have hnil : fnames = [] := List.length_eq_zero.mp (Nat.le_zero.mp h)
  subst hnil
  exact ⟨rfl, rfl, fun _ => rfl⟩

/-- C8 witness: the empty list at concrete flag values. -/
theorem c8_load_empty_file_list_witness :
    load ([] : List String) false true (fun _ => ())
        (fun _ _ => (⟨[]⟩, ())) (fun _ => mkDay 0 0 0) (fun d _ => d) =
      (⟨[]⟩, none) :=
  (c8_load_empty_file_list [] false true (fun _ => ())
    (fun _ _ => (⟨[]⟩, ())) (fun _ => mkDay 0 0 0) (fun d _ => d)
    (by decide)).1

/-- C10: `cdaweb.load` on a non-empty list reads only from `fnames[0]` (or
its name with the trailing date stripped, in the monthly branch): two calls
with the same first filename and the same flags return the same (data, meta)
pair, whatever the further filenames and whatever the contents of every
other file. -/
theorem c10_load_reads_only_first_file
    {π μ : Type} (f0 : String) (rest1 rest2 : List String)
    (fake flat : Bool) (openCdf1 openCdf2 : String → π)
    (toPysat : π → Bool → PdDataFrame × μ) (strptime : String → PyDate)
    (sliceDaily : PdDataFrame → PyDate → PdDataFrame)
    (hopen : openCdf1 (if fake then pyDropLastChars 11 f0 else f0) =
        openCdf2 (if fake then pyDropLastChars 11 f0 else f0)) :
    load (f0 :: rest1) fake flat openCdf1 toPysat strptime sliceDaily =
      load (f0 :: rest2) fake flat openCdf2 toPysat strptime sliceDaily := by
  cases fake with
  | false =>
      have h0 : openCdf1 f0 = openCdf2 f0 := by simpa using hopen
      simp [load, h0]
  | true =>
      have h0 : openCdf1 (pyDropLastChars 11 f0) =
          openCdf2 (pyDropLastChars 11 f0) := by simpa using hopen
      simp [load, h0]

/-- C10 witness: two concrete calls sharing only the first filename agree. -/
theorem c10_load_reads_only_first_file_witness :
    load ["a.cdf", "b.cdf"] false true (fun s => s)
        (fun s _ => (⟨[(s, [some 1])]⟩, s)) (fun _ => mkDay 0 0 0)
        (fun d _ => d) =
      load ["a.cdf", "c.cdf"] false true (fun s => s)
        (fun s _ => (⟨[(s, [some 1])]⟩, s)) (fun _ => mkDay 0 0 0)
        (fun d _ => d) :=
  c10_load_reads_only_first_file "a.cdf" ["b.cdf"] ["c.cdf"] false true
    (fun s => s) (fun s => s) (fun s _ => (⟨[(s, [some 1])]⟩, s))
    (fun _ => mkDay 0 0 0) (fun d _ => d) rfl

/-- `' '.join` with the caught exception object as its first item always
raises TypeError (CPython rejects the non-str item before joining). -/
theorem strJoin_exc_head (sep : String) (e : PyExc) (rest : List PyStrOrObj) :
    strJoin sep (.exc e :: rest) = .error (.typeError
      ("sequence item 0: expected str instance, " ++ excName e ++
        " found")) := by
  have h0 : ("sequence item " ++ toString (0 : Nat) : String) =
      "sequence item 0" := by decide
  have h1 : (("sequence item 0" : String) ++ ": expected str instance, ") =
      "sequence item 0: expected str instance, " := by decide
  simp [strJoin, strJoin.strJoinCheck, h0, h1]

/-- The claim's description of the failure handling, spelled out: the caught
exception would be raised again as the same exception type with its original
message extended by an appended string. -/
def claimedReRaiseWithAppendedString (caught : PyExc)
    (outcome : Option PyExc) : Bool :=
  match outcome with
  | none => false
  | some e =>
      excName e == excName caught
        && String.isPrefixOf (excMessage caught) (excMessage e)
        && decide ((excMessage caught).length < (excMessage e).length)

/-- C3 counterexample: on a GET that raises RequestException('boom'), the
standard download body does not re-raise that exception with an appended
string; its handler is `logger.info(' '.join((exception, ...)))`, whose join
of the exception object raises TypeError, which is what propagates. -/
theorem c3_counterexample :
    (downloadDateStandard (fun _ => .raise (.requestException "boom"))
        "https://site/dir" "f.cdf" "f.cdf" "/data" (fun t _ => t)
        (mkDay 2009 1 1) DlState.empty).2 =
      some (.typeError
        "sequence item 0: expected str instance, RequestException found")
    ∧ claimedReRaiseWithAppendedString (.requestException "boom")
        (downloadDateStandard (fun _ => .raise (.requestException "boom"))
          "https://site/dir" "f.cdf" "f.cdf" "/data" (fun t _ => t)
          (mkDay 2009 1 1) DlState.empty).2 = false := by
  exact ⟨by decide, by decide⟩

/-- C3 amended: when an HTTP request inside the download routine fails with
a RequestException (its subclass ConnectionError included), the routine's
only failure handling is a try/except whose handler attempts to log an
informational message by joining the caught exception object with strings;
that join itself raises TypeError, so the caught exception is not re-raised
with an appended string; exceptions outside the RequestException class
propagate unchanged. -/
theorem c3_download_failure_handling
    (remoteUrl remoteFname localFname dataPath : String) (fmt : FormatFn)
    (date : PyDate) (st : DlState) (e : PyExc)
    (he : isRequestExceptionClass e = true) :
    (downloadDateStandard (fun _ => .raise e) remoteUrl remoteFname
        localFname dataPath fmt date st).2 =
      some (.typeError ("sequence item 0: expected str instance, "
        ++ excName e ++ " found"))
    ∧ claimedReRaiseWithAppendedString e
        (downloadDateStandard (fun _ => .raise e) remoteUrl remoteFname
          localFname dataPath fmt date st).2 = false
    ∧ ∀ e2, isRequestExceptionClass e2 = false →
        (downloadDateStandard (fun _ => .raise e2) remoteUrl remoteFname
          localFname dataPath fmt date st).2 = some e2 := by
  refine ⟨?_, ?_, ?_⟩
  · simp [downloadDateStandard, he, strJoin_exc_head]
  · simp only [downloadDateStandard, he, strJoin_exc_head, if_true]
    cases e <;> simp_all [claimedReRaiseWithAppendedString, excName,
      isRequestExceptionClass]
  · intro e2 he2
    simp [downloadDateStandard, he2]

/-- C3 amended witness: a concrete ConnectionError is handled the same way. -/
theorem c3_download_failure_handling_witness :
    (downloadDateStandard (fun _ => .raise (.connectionError "refused"))
        "https://cdaweb.gsfc.nasa.gov/pub" "f.cdf" "f.cdf" "/data"
        (fun t _ => t) (mkDay 2009 1 2) DlState.empty).2 =
      some (.typeError
        "sequence item 0: expected str instance, ConnectionError found") :=
  (c3_download_failure_handling "https://cdaweb.gsfc.nasa.gov/pub" "f.cdf"
    "f.cdf" "/data" (fun t _ => t) (mkDay 2009 1 2) DlState.empty
    (.connectionError "refused") rfl).1

/-- C4: the cnofs_plp table supplies the three documented keys, but the
formosat1_ivm table supplies 'remote_dir' and 'fname' instead, so on its
only supported combination (inst_id '', tag '') download raises an uncaught
KeyError('dir') before issuing any GET or writing any file — contradicting
the supported_tags contract stated in download's own docstring. -/
theorem c4_formosat1_download_tags_missing_keys :
    dictGet cnofsPlpBasicTag "dir" = .ok "/pub/data/cnofs/plp/plasma_1sec"
    ∧ dictGet cnofsPlpBasicTag "remote_fname" =
        .ok ("\x7byear:4d\x7d/" ++ cnofsPlpFname)
    ∧ dictGet cnofsPlpBasicTag "local_fname" = .ok cnofsPlpFname
    ∧ tagsLookup formosat1DownloadTags (some "") (some "") =
        .ok formosat1BasicTag
    ∧ dictGet formosat1BasicTag "dir" = .error (.keyError "dir")
    ∧ download cnofsFormatFn formosat1DownloadTags [mkDay 2002 1 1]
        (some "") (some "") "https://cdaweb.gsfc.nasa.gov" "/data" false
        (.ok []) (fun _ => .ok []) (fun _ => .resp 404 "") =
      (DlState.empty, some (.keyError "dir")) := by
  exact ⟨rfl, rfl, rfl, rfl, rfl, rfl⟩

/-- The remote path GET-ed for a given date by the standard download loop. -/
def stdRemotePath (remoteUrl remoteFname : String) (fmt : FormatFn)
    (date : PyDate) : String :=
  stripChar '/' remoteUrl ++ "/" ++ fmt remoteFname date

/-- Each standard loop iteration issues exactly one GET, for its date's
formatted remote path — whatever the response (success, 404, or raise). -/
theorem downloadDateStandard_gets (request : String → HttpResult)
    (remoteUrl remoteFname localFname dataPath : String) (fmt : FormatFn)
    (date : PyDate) (st : DlState) :
    (downloadDateStandard request remoteUrl remoteFname localFname dataPath
        fmt date st).1.gets =
      st.gets ++ [stdRemotePath remoteUrl remoteFname fmt date] := by
  unfold downloadDateStandard stdRemotePath
  cases hreq : request
      (stripChar '/' remoteUrl ++ "/" ++ fmt remoteFname date) with
  | resp status content =>
      by_cases h4 : status != 404 <;> simp [hreq, h4]
  | raise e =>
      by_cases he : isRequestExceptionClass e
      · simp [hreq, he, strJoin_exc_head]
      · simp [hreq, he]

/-- The GET trace of the standard loop is the per-date remote path of a
prefix-closed selection of the dates (all of them unless an iteration
aborted the loop): no date, and so no remote file, is ever requested twice,
and a failure leads to no retry, only to stopping. -/
theorem downloadLoopStd_gets (request : String → HttpResult)
    (remoteUrl remoteFname localFname dataPath : String) (fmt : FormatFn) :
    ∀ (dates : List PyDate) (st : DlState),
      ∃ taken : List PyDate, List.Sublist taken dates ∧
        (downloadLoopStd request remoteUrl remoteFname localFname dataPath
            fmt dates st).1.gets =
          st.gets ++ taken.map (stdRemotePath remoteUrl remoteFname fmt)
  | [], st => ⟨[], List.Sublist.refl [], by simp [downloadLoopStd]⟩
  | d :: rest, st => by
      have hstep := downloadDateStandard_gets request remoteUrl remoteFname
        localFname dataPath fmt d st
      cases hres : downloadDateStandard request remoteUrl remoteFname
          localFname dataPath fmt d st with
      | mk st1 oe =>
          rw [hres] at hstep
          cases oe with
          | none =>
              obtain ⟨taken, hsub, hgets⟩ := downloadLoopStd_gets request
                remoteUrl remoteFname localFname dataPath fmt rest st1
              refine ⟨d :: taken, List.Sublist.cons₂ d hsub, ?_⟩
              simp only [downloadLoopStd, hres]
              rw [hgets, hstep]
              simp
          | some e =>
              refine ⟨[d], List.Sublist.cons₂ d (List.nil_sublist rest), ?_⟩
              simp only [downloadLoopStd, hres]
              exact hstep

/-- C6: one call to download (standard mode) GETs each target remote file at
most once: the set of dates looped over is deduplicated (the intersection of
the requested dates with the remote index), each date triggers exactly one
GET of its formatted path, and no response — failure and 404 included —
causes a second request for the same file within the call.  The injectivity
hypothesis says the remote filename template distinguishes the looped dates,
as the adapters' day-resolved templates do. -/
theorem c6_download_at_most_one_get
    (fmt : FormatFn) (tags : SupportedTags) (dateArray : List PyDate)
    (tag instId : Option String) (remoteSite dataPath : String)
    (listPerDate : PyDate → Except PyExc (List String))
    (request : String → HttpResult) (remoteIndex : List PyDate)
    (instDict : TagDict) (dirStr remoteFname localFname : String)
    (hlook : tagsLookup tags instId tag = .ok instDict)
    (hdir : dictGet instDict "dir" = .ok dirStr)
    (hrf : dictGet instDict "remote_fname" = .ok remoteFname)
    (hlf : dictGet instDict "local_fname" = .ok localFname)
    (hinj : ∀ a ∈ dedupInter remoteIndex dateArray,
        ∀ b ∈ dedupInter remoteIndex dateArray,
          stdRemotePath (remoteSite ++ dirStr) remoteFname fmt a =
            stdRemotePath (remoteSite ++ dirStr) remoteFname fmt b →
              a = b) :
    (download fmt tags dateArray tag instId remoteSite dataPath false
        (.ok remoteIndex) listPerDate request).1.gets.Nodup
    ∧ ∀ url, ((download fmt tags dateArray tag instId remoteSite dataPath
        false (.ok remoteIndex) listPerDate request).1.gets).count url
          ≤ 1 := by
  have hdl : download fmt tags dateArray tag instId remoteSite dataPath
      false (.ok remoteIndex) listPerDate request =
      downloadLoopStd request (remoteSite ++ dirStr) remoteFname localFname
        dataPath fmt (dedupInter remoteIndex dateArray) DlState.empty := by
    simp [download, hlook, hdir, hrf, hlf]
  obtain ⟨taken, hsub, hgets⟩ := downloadLoopStd_gets request
    (remoteSite ++ dirStr) remoteFname localFname dataPath fmt
    (dedupInter remoteIndex dateArray) DlState.empty
  have hnodupDates : (dedupInter remoteIndex dateArray).Nodup :=
    List.nodup_dedup _
  have hnodupTaken : taken.Nodup := hsub.nodup hnodupDates
  have hsubset := hsub.subset
  have hnodup : (download fmt tags dateArray tag instId remoteSite dataPath
      false (.ok remoteIndex) listPerDate request).1.gets.Nodup := by
    rw [hdl, hgets]
    simp only [DlState.empty, List.nil_append]
    exact List.Nodup.map_on
      (fun a ha b hb hab => hinj a (hsubset ha) b (hsubset hb) hab)
      hnodupTaken
  exact ⟨hnodup, fun url => List.nodup_iff_count_le_one.mp hnodup url⟩

/-- C6 witness: with the cnofs_plp templates, two requested days present on
the server and a 404-everything oracle, the GET trace is duplicate-free. -/
theorem c6_download_at_most_one_get_witness :
    (download cnofsFormatFn cnofsPlpSupportedTags
        [mkDay 2009 1 1, mkDay 2009 1 2] (some "") (some "")
        "https://cdaweb.gsfc.nasa.gov" "/data" false
        (.ok [mkDay 2009 1 1, mkDay 2009 1 2, mkDay 2009 1 3])
        (fun _ => .ok []) (fun _ => .resp 404 "")).1.gets.Nodup :=
  (c6_download_at_most_one_get cnofsFormatFn cnofsPlpSupportedTags
    [mkDay 2009 1 1, mkDay 2009 1 2] (some "") (some "")
    "https://cdaweb.gsfc.nasa.gov" "/data" (fun _ => .ok [])
    (fun _ => .resp 404 "")
    [mkDay 2009 1 1, mkDay 2009 1 2, mkDay 2009 1 3]
    cnofsPlpBasicTag "/pub/data/cnofs/plp/plasma_1sec"
    ("\x7byear:4d\x7d/" ++ cnofsPlpFname) cnofsPlpFname
    rfl rfl rfl rfl (by decide)).1

/-- The MultiIndex of ranges has one tuple per element of the cartesian
product of the dimensions. -/
theorem lexProduct_length (ns : List Nat) :
    (lexProduct ns).length = ns.prod := by
  induction ns with
  | nil => rfl
  | cons n ns ih =>
      simp [lexProduct, List.length_flatMap, ih, List.prod_cons,
        Function.comp_def, List.map_const, Nat.mul_comm]

/-- The tuples of the MultiIndex of ranges are exactly the componentwise
bounded index tuples. -/
theorem mem_lexProduct (ns : List Nat) (t : List Nat) :
    t ∈ lexProduct ns ↔ List.Forall₂ (fun i n => i < n) t ns := by
  induction ns generalizing t with
  | nil =>
      simp only [lexProduct, List.mem_singleton]
      constructor
      · intro h; subst h; exact List.Forall₂.nil
      · intro h; cases h; rfl
  | cons n ns ih =>
      simp only [lexProduct, List.mem_flatMap, List.mem_map, List.mem_range]
      constructor
      · rintro ⟨i, hi, t2, ht2, rfl⟩
        exact List.Forall₂.cons hi ((ih t2).mp ht2)
      · intro h
        cases h with
        | cons hi ht2 => exact ⟨_, hi, _, (ih _).mpr ht2, rfl⟩

/-- The tuples of the MultiIndex of ranges are pairwise distinct. -/
theorem lexProduct_nodup (ns : List Nat) : (lexProduct ns).Nodup := by
  induction ns with
  | nil => simp [lexProduct]
  | cons n ns ih =>
      unfold lexProduct
      apply List.nodup_flatMap.mpr
      refine ⟨?_, ?_⟩
      · intro i _
        exact ih.map (fun a b hab => by
          simpa using congrArg List.tail hab)
      · apply List.Pairwise.imp ?_ (List.nodup_range n)
        intro a b hab
        simp only [Function.onFun, List.disjoint_left]
        rintro x hxa hxb
        obtain ⟨ta, _, rfl⟩ := List.mem_map.mp hxa
        obtain ⟨tb, _, htb⟩ := List.mem_map.mp hxb
        exact hab (by simpa using congrArg List.head? htb.symm)

/-- C7 amended: on an array of more than two dimensions,
`convert_ndimensional` returns a frame whose row count is `data.shape[0]`
and whose column labels are exactly the distinct tuples of the cartesian
product of the remaining dimensions (the MultiIndex of ranges), with one
value slot per row and column; but because the code reshapes the
reversed-axes transpose `data.T`, the first axis survives only as the row
count and row-index length — row r does not, in general, hold the entries
of `data[r, ...]` (see the counterexample). -/
theorem c7_convert_ndimensional_shape
    (n0 : Nat) (rest : List Nat) (flat : List Rat) :
    (convert_ndimensional (n0 :: rest) flat).nrows = n0
    ∧ (convert_ndimensional (n0 :: rest) flat).columnLabels.length =
        rest.prod
    ∧ (convert_ndimensional (n0 :: rest) flat).columnLabels.Nodup
    ∧ (∀ t ∈ (convert_ndimensional (n0 :: rest) flat).columnLabels,
        List.Forall₂ (fun i n => i < n) t rest)
    ∧ (convert_ndimensional (n0 :: rest) flat).values.length =
        n0 * rest.prod := by
  refine ⟨rfl, ?_, ?_, ?_, ?_⟩
  · exact lexProduct_length rest
  · exact lexProduct_nodup rest
  · intro t ht
    exact (mem_lexProduct rest t).mp ht
  · simp [convert_ndimensional, npTransposeFlat, List.prod_cons]

/-- C7 amended witness: the 2×2×2 array keeps 2 rows and 4 distinct column
tuples. -/
theorem c7_convert_ndimensional_shape_witness :
    (convert_ndimensional [2, 2, 2]
        [0, 1, 2, 3, 4, 5, 6, 7]).nrows = 2
    ∧ (convert_ndimensional [2, 2, 2]
        [0, 1, 2, 3, 4, 5, 6, 7]).columnLabels.length = 4 :=
  have h := c7_convert_ndimensional_shape 2 [2, 2]
    [0, 1, 2, 3, 4, 5, 6, 7]
  ⟨h.1, h.2.1⟩

/-- The claim's reading of 'preserving the first axis as the row index': row
r of the converted frame would hold, at the column labelled by the tuple t
of the MultiIndex, the element `data[r, t...]` of the original array. -/
def claimedFirstAxisPreserved (shape : List Nat) (flat : List Rat) : Prop :=
  ∀ (r : Nat) (t : List Nat), r < shape.headD 0 →
    t ∈ lexProduct shape.tail →
    (convert_ndimensional shape flat).entry r
        (List.indexOf t (lexProduct shape.tail)) =
      flat.getD (cIndex shape (r :: t)) 0

/-- C7 counterexample: for the 2×2×2 array holding 0..7 in C order, the
reshape of the reversed-axes transpose places data[1,0,0] = 4 in row 0 at
the column labelled (0,1), where data[0,0,1] = 1 would have to sit — the
first axis is not preserved across the rows of the returned frame. -/
theorem c7_counterexample :
    ¬ claimedFirstAxisPreserved [2, 2, 2] [0, 1, 2, 3, 4, 5, 6, 7] :=
  fun h =>
    absurd (h 0 [0, 1] (by decide) (by decide)) (by decide)

end PysatNasa
